import Mathlib

set_option maxRecDepth 100000
set_option maxHeartbeats 1600000

/-!
Shallow embedding of the AI-service core of the repository (file
`src/unnamed/part_004`, the representative `AIService` variant, plus the
`sendMessage` variant in `src/services/aiService.ts`), together with proofs
about the frozen claims.

Modelling conventions, used consistently below:

* JavaScript numbers are modelled as `ℚ` (timestamps, TTLs, quality scores,
  hit counters).  All arithmetic the code performs on these quantities
  (`+`, `*`, comparison, division by non-zero constants) is exact on the
  doubles that actually occur, so `ℚ` is faithful; the single place where
  IEEE special values (Infinity / NaN) matter — the eviction score — is
  modelled explicitly by the `JsNum` type below.
* A JavaScript `Map` is modelled as an association list in insertion order
  (`Map.set` on an existing key updates in place, otherwise appends;
  iteration order is insertion order — both are the ECMAScript semantics
  that the eviction scan relies on).
* `Date.now()` is passed in explicitly as a `now : ℚ` argument.
* Strings are Lean `String`s; character indexing uses code points, which
  agrees with UTF-16 code units on all inputs appearing in the claims.
* A thrown exception is an `Except.error`; the only throw site reachable in
  the claims is reading `.content` of `undefined` (empty conversation).
-/

/-- Bool test: does `pat` occur as a contiguous sublist of `l`?
Models JavaScript `String.prototype.includes` (on code points). -/
def hasSub (pat : List Char) : List Char → Bool
  | [] => pat.isPrefixOf []
  | c :: rest => pat.isPrefixOf (c :: rest) || hasSub pat rest

/-- JavaScript `s.includes(pat)`. -/
def strIncludes (s pat : String) : Bool :=
  hasSub pat.data s.data

/-- The whitespace characters relevant to `String.prototype.trim` on the
ASCII inputs of this development. -/
def jsIsWs (c : Char) : Bool :=
  c = ' ' || c = '\t' || c = '\n' || c = '\r'

/-- JavaScript `s.trim()` (ASCII whitespace). -/
def jsTrim (s : String) : String :=
  String.mk (((s.data.dropWhile jsIsWs).reverse.dropWhile jsIsWs).reverse)

/-- JavaScript `s.toLowerCase()` (ASCII case mapping suffices for every
string this code lowercases). -/
def jsToLower (s : String) : String :=
  String.mk (s.data.map Char.toLower)

/-- JavaScript `s.split(sep)` for a single-character separator: empty
pieces are kept, a trailing separator yields a trailing empty piece, and
the empty string yields one empty piece. -/
def jsSplitData (sep : Char) : List Char → List (List Char)
  | [] => [[]]
  | c :: rest =>
    let r := jsSplitData sep rest
    if c = sep then [] :: r
    else
      match r with
      | h :: t => (c :: h) :: t
      | [] => [[c]]

/-- `jsSplitData` at the `String` level. -/
def jsSplit (sep : Char) (s : String) : List String :=
  (jsSplitData sep s.data).map String.mk

/-- JavaScript `s.startsWith(pat)`. -/
def jsStartsWith (s pat : String) : Bool :=
  pat.data.isPrefixOf s.data

/-- JavaScript `s.slice(n)` for a non-negative character index. -/
def jsDropStr (s : String) (n : ℕ) : String :=
  String.mk (s.data.drop n)

/-- Association-list lookup, modelling `Map.get` (returning `undefined` as
`none`). -/
def mapLookup {α : Type} (m : List (String × α)) (k : String) : Option α :=
  match m with
  | [] => none
  | p :: rest => if p.1 = k then some p.2 else mapLookup rest k

/-- `Map.set`: update in place if the key is present (preserving insertion
order), otherwise append. -/
def mapSet {α : Type} (m : List (String × α)) (k : String) (v : α) :
    List (String × α) :=
  match m with
  | [] => [(k, v)]
  | p :: rest => if p.1 = k then (k, v) :: rest else p :: mapSet rest k v

/-- `Map.delete`. -/
def mapDelete {α : Type} (m : List (String × α)) (k : String) :
    List (String × α) :=
  match m with
  | [] => []
  | p :: rest => if p.1 = k then rest else p :: mapDelete rest k

/-- The fragment of IEEE double values produced by the eviction-score
division: a finite rational, the two infinities, or NaN. -/
inductive JsNum where
  | fin (q : ℚ)
  | inf
  | negInf
  | nan
deriving DecidableEq, Repr

/-- JavaScript division `a / b` on finite operands, with the IEEE results
for a zero divisor. -/
def jsDiv (a b : ℚ) : JsNum :=
  if b = 0 then
    if 0 < a then JsNum.inf else if a < 0 then JsNum.negInf else JsNum.nan
  else JsNum.fin (a / b)

/-- JavaScript `<` on the `JsNum` fragment (NaN compares false). -/
def jsLt : JsNum → JsNum → Bool
  | JsNum.nan, _ => false
  | _, JsNum.nan => false
  | JsNum.inf, _ => false
  | JsNum.negInf, JsNum.negInf => false
  | JsNum.negInf, _ => true
  | JsNum.fin _, JsNum.negInf => false
  | JsNum.fin a, JsNum.fin b => decide (a < b)
  | JsNum.fin _, JsNum.inf => true

/-- `AIMessage` (part_004 lines 2-6). -/
structure AIMessage where
  role : String
  content : String
  image : Option String := none
deriving DecidableEq, Repr

/-- `AIResponse` (part_004 lines 8-13). -/
structure AIResponse where
  content : String
  model : String
  imageUrl : Option String := none
  error : Option String := none
deriving DecidableEq, Repr

/-- `AIStreamChunk` (part_004 lines 15-20). -/
structure AIStreamChunk where
  chunk : String
  isFinal : Bool
  error : Option String := none
  model : Option String := none
deriving DecidableEq, Repr

/-- One stored cache entry (the record value of the `cache` map,
part_004 line 24). -/
structure CacheItem where
  response : AIResponse
  timestamp : ℚ
  ttl : ℚ
  quality : ℚ
deriving DecidableEq, Repr

/-- The state of a `QuantumResponseCache` instance (part_004 lines 23-107). -/
structure QuantumResponseCache where
  cache : List (String × CacheItem)
  hitCount : List (String × ℚ)
  maxSize : Nat
deriving DecidableEq, Repr

/-- `new QuantumResponseCache(maxSize)` (part_004 lines 28-32). -/
def QuantumResponseCache.mkCache (maxSize : Nat) : QuantumResponseCache :=
  { cache := [], hitCount := [], maxSize := maxSize }

/-- `get(key)` (part_004 lines 34-49).  Returns the looked-up response paired
with the successor state (expired entries are purged, hit counters bumped). -/
def QuantumResponseCache.get (st : QuantumResponseCache) (key : String)
    (now : ℚ) : Option AIResponse × QuantumResponseCache :=
  match mapLookup st.cache key with
  | none => (none, st)
  | some item =>
    let adaptiveTtl := item.ttl * (1 + item.quality * 0.5)
    if item.timestamp + adaptiveTtl < now then
      (none, { st with cache := mapDelete st.cache key,
                       hitCount := mapDelete st.hitCount key })
    else
      let hits := (mapLookup st.hitCount key).getD 0 + (1 + item.quality)
      (some item.response, { st with hitCount := mapSet st.hitCount key hits })

/-- `calculateQuality(response)` (part_004 lines 75-85). -/
def QuantumResponseCache.calculateQuality (response : AIResponse) : ℚ :=
  let content := response.content
  let score : ℚ := 0.5
  let score := if 50 < content.length ∧ content.length < 2000
    then score + 0.2 else score
  let score := if strIncludes content "```" || strIncludes content "function"
      || strIncludes content "class" then score + 0.3 else score
  let score := if strIncludes content "\n-" || strIncludes content "1."
      || strIncludes content "•" then score + 0.2 else score
  let score := if strIncludes content "import" || strIncludes content "export"
      || strIncludes content "const" then score + 0.1 else score
  min score 1.0

/-- The body of the `for (const [key, item] of this.cache.entries())` scan in
`evictLowQuality` (part_004 lines 91-100): fold the running
`(lowestQualityKey, lowestScore)` pair over the entries in insertion order. -/
def QuantumResponseCache.evictScan (st : QuantumResponseCache) (now : ℚ) :
    Option String × JsNum :=
  st.cache.foldl
    (fun acc p =>
      let hits := (mapLookup st.hitCount p.1).getD 0
      let age := now - p.2.timestamp
      let score := jsDiv (p.2.quality * hits) (age / 1000)
      if jsLt score acc.2 then (some p.1, score) else acc)
    (none, JsNum.inf)

/-- `evictLowQuality()` (part_004 lines 87-106).  Note the final
`if (lowestQualityKey)` is a JavaScript truthiness test, false for both
`null` and the empty-string key. -/
def QuantumResponseCache.evictLowQuality (st : QuantumResponseCache)
    (now : ℚ) : QuantumResponseCache :=
  match (st.evictScan now).1 with
  | some k =>
    if k ≠ "" then
      { st with cache := mapDelete st.cache k,
                hitCount := mapDelete st.hitCount k }
    else st
  | none => st

/-- `set(key, response, baseTtl)` (part_004 lines 51-73). -/
def QuantumResponseCache.set (st : QuantumResponseCache) (key : String)
    (response : AIResponse) (baseTtl : ℚ) (now : ℚ) : QuantumResponseCache :=
  let quality := QuantumResponseCache.calculateQuality response
  let content := response.content
  let ttl := baseTtl
  let ttl := if 500 < content.length then ttl * 1.5 else ttl
  let ttl := if strIncludes content "```" then ttl * 2 else ttl
  let ttl := if (0.8 : ℚ) < quality then ttl * 1.8 else ttl
  let st := if st.maxSize ≤ st.cache.length then st.evictLowQuality now else st
  { st with cache := mapSet st.cache key ⟨response, now, ttl, quality⟩,
            hitCount := mapSet st.hitCount key (quality * 10) }

/-- The default `baseTtl` of `set` (part_004 line 51). -/
def defaultBaseTtl : ℚ := 15 * 60 * 1000

example :
    ((QuantumResponseCache.mkCache 2).set "k" ⟨"hi", "m", none, none⟩
      defaultBaseTtl 0).cache.length = 1 := by decide

/-! ### Instant responses (part_004 lines 112-123)

The canned texts are transcribed byte-for-byte from the repository file
(which stores its emoji double-encoded; the escapes below are exactly the
code points present in the file). -/

/-- Canned text of instant-response rule 0 (greeting). -/
def instantResponseText0 : String :=
  "âš¡ Hello! I\x27m PandaNexus AI, your lightning-fast coding companion. Ready to build something revolutionary?"

/-- Canned text of instant-response rule 1 (thanks). -/
def instantResponseText1 : String :=
  "ğŸš€ You\x27re absolutely welcome! What\x27s our next world-changing project?"

/-- Canned text of instant-response rule 2 (how are you). -/
def instantResponseText2 : String :=
  "ğŸ’» Running at quantum speed! All neural networks optimized and ready for your next challenge!"

/-- Canned text of instant-response rule 3 (capabilities). -/
def instantResponseText3 : String :=
  "ğŸŒŸ I\x27m the world\x27s most advanced AI! I can:\nâ€¢ âš¡ Generate lightning-fast code in any language\nâ€¢ ğŸ—ï¸ Build complete applications instantly\nâ€¢ ğŸ› Debug and optimize like a superhuman\nâ€¢ ğŸš€ Deploy to Vercel in seconds\nâ€¢ ğŸ¨ Create stunning AI images\nâ€¢ ğŸ§  Provide genius-level coding assistance\n\nWhat world-changing project shall we create?"

/-- Canned text of instant-response rule 4 (who are you). -/
def instantResponseText4 : String :=
  "ğŸ¼ I\x27m PandaNexus - the world\x27s most revolutionary AI coding platform, crafted by the genius Shakeel! I combine quantum-level AI models to give you superhuman abilities."

/-- Canned text of instant-response rule 5 (goodbye). -/
def instantResponseText5 : String :=
  "ğŸ‘‹ Keep building the future! PandaNexus is always here when you need world-class AI assistance."

/-- Canned text of instant-response rule 6 (create/build/make app). -/
def instantResponseText6 : String :=
  "ğŸš€ Let\x27s build something that will shock the world! What type of revolutionary app are you envisioning?\n\nâ€¢ ğŸŒ Full-stack web applications\nâ€¢ ğŸ“± Mobile-responsive designs\nâ€¢ ğŸ›’ E-commerce platforms\nâ€¢ ğŸ¤– AI-powered tools\nâ€¢ ğŸ® Interactive experiences\n\nDescribe your vision and I\x27ll bring it to life instantly!"

/-- Canned text of instant-response rule 7 (fix/debug). -/
def instantResponseText7 : String :=
  "ğŸ”§ I\x27m your debugging superhero! Share your code and I\x27ll identify and fix issues faster than humanly possible!"

/-- Canned text of instant-response rule 8 (deploy). -/
def instantResponseText8 : String :=
  "ğŸŒ Ready to launch your creation to the world? I can deploy your project to Vercel with zero configuration in milliseconds!"

/-- Canned text of instant-response rule 9 (code). -/
def instantResponseText9 : String :=
  "ğŸ’» **Code Studio Mode Activated!** Let\x27s enter the world\x27s most advanced coding environment. What would you like to build?\n\nâ€¢ ğŸš€ React/Next.js applications\nâ€¢ ğŸ Python scripts and APIs\nâ€¢ ğŸŒ Full-stack solutions\nâ€¢ ğŸ“± Mobile-first designs\nâ€¢ ğŸ¤– AI integrations\n\nReady to code at the speed of thought?"

/-- Inline short-input response for `code` (part_004 line 238). -/
def instantCodeShortText : String :=
  "ğŸ’» Ready to code! What programming language or framework would you like to work with?"

/-- Inline short-input response for `help` (part_004 line 242). -/
def instantHelpShortText : String :=
  "ğŸ†˜ I\x27m here to help! What specific challenge are you facing?"

/-- Does some alternative in `alts` occur as a prefix of `s`?  Models a
JavaScript anchored alternation regex `^(a|b|...)` on an already lowercased
string. -/
def startsWithAny (s : List Char) (alts : List String) : Bool :=
  alts.any (fun a => a.data.isPrefixOf s)

/-- Does `pat` occur after zero or more non-newline characters at the head
of the list?  Models the regex fragment `.*pat` (JavaScript `.` does not
match a newline). -/
def dotStarThen (pat : List Char) : List Char → Bool
  | [] => pat.isPrefixOf []
  | c :: rest => pat.isPrefixOf (c :: rest) || (!(c = '\n') && dotStarThen pat rest)

/-- Does `p1.*p2` match anywhere in the list (unanchored)? -/
def hasSeq (p1 p2 : List Char) : List Char → Bool
  | [] => p1.isPrefixOf [] && dotStarThen p2 []
  | c :: rest =>
    (p1.isPrefixOf (c :: rest) && dotStarThen p2 ((c :: rest).drop p1.length))
      || hasSeq p1 p2 rest

/-- Models the anchored regex `^(create|build|make).*app` of rule 6. -/
def matchesCreateApp (s : List Char) : Bool :=
  ["create", "build", "make"].any
    (fun a => a.data.isPrefixOf s && dotStarThen "app".data (s.drop a.length))

/-- `getInstantResponse(message)` (part_004 lines 228-246): the rule table is
tried in order on the trimmed, lowercased message; two extra short-input
checks follow. -/
def getInstantResponse (message : String) : Option String :=
  let trimmed := jsToLower (jsTrim message)
  let t := trimmed.data
  if startsWithAny t ["hello", "hi", "hey", "greetings", "good morning",
      "good afternoon", "good evening"] then some instantResponseText0
  else if startsWithAny t ["thanks", "thank you", "appreciate it", "cheers"]
    then some instantResponseText1
  else if startsWithAny t ["how are you", "how\x27s it going", "how do you do"]
    then some instantResponseText2
  else if startsWithAny t ["what can you do", "what are your capabilities",
      "help"] then some instantResponseText3
  else if startsWithAny t ["who are you", "what are you", "introduce yourself"]
    then some instantResponseText4
  else if startsWithAny t ["bye", "goodbye", "see you", "farewell"]
    then some instantResponseText5
  else if matchesCreateApp t then some instantResponseText6
  else if startsWithAny t ["fix", "debug", "error", "problem"]
    then some instantResponseText7
  else if startsWithAny t ["deploy", "publish", "host"]
    then some instantResponseText8
  else if startsWithAny t ["code", "coding", "program"]
    then some instantResponseText9
  else if strIncludes trimmed "code" && trimmed.length < 20
    then some instantCodeShortText
  else if strIncludes trimmed "help" && trimmed.length < 15
    then some instantHelpShortText
  else none

/-- `simulateTyping(text, onChunk, baseSpeed)` (part_004 lines 434-465) as
the finite sequence of chunks it delivers: one non-final chunk per word of
`text.split(' ')` (with a leading space from the second word on), then one
final chunk.  The per-word delay computation affects timing only, not the
delivered chunks, so it does not appear in the trace. -/
def simulateTyping (text : String) : List AIStreamChunk :=
  let words := jsSplit ' ' text
  words.enum.map (fun p =>
    { chunk := (if 0 < p.1 then " " else "") ++ p.2, isFinal := false,
      error := none, model := some "PandaNexus Instant" })
  ++ [{ chunk := "", isFinal := true, error := none,
        model := some "PandaNexus Instant" }]

/-- Fallback text for `code` (part_004 lines 469-479). -/
def fallbackText_code : String :=
  "ğŸ”§ **Code Studio - World\x27s Best Coding Environment!**\n\nI\x27m your elite coding companion! While optimizing my quantum neural networks, I can still provide world-class assistance:\n\nâ€¢ **ğŸš€ Code Generation**: Describe any project and I\x27ll build it instantly\nâ€¢ **ğŸ› Advanced Debugging**: Share your code for superhuman analysis  \nâ€¢ **âš¡ Performance Optimization**: Make your code lightning-fast\nâ€¢ **ğŸ—ï¸ Architecture Planning**: Design scalable, professional systems\nâ€¢ **ğŸŒ Instant Deployment**: Deploy to Vercel in seconds\n\nWhat revolutionary code shall we create together?"

/-- Fallback text for `creative` (part_004 lines 481-491). -/
def fallbackText_creative : String :=
  "ğŸ¨ **Creative Engine - Unleash Your Imagination!**\n\nLet\x27s create something that will amaze the world! I can help with:\n\nâ€¢ **âœï¸ Masterful Writing**: Stories, articles, compelling copy\nâ€¢ **ğŸ’¡ Genius Brainstorming**: Revolutionary ideas and solutions\nâ€¢ **ğŸ¨ Design Concepts**: Stunning UI/UX and visual designs\nâ€¢ **ğŸ“ˆ Content Strategy**: Viral content and optimization\nâ€¢ **ğŸš€ Innovation**: Next-level creative solutions\n\nWhat creative masterpiece are we building today?"

/-- Fallback text for `knowledge` (part_004 lines 493-503). -/
def fallbackText_knowledge : String :=
  "ğŸ“š **Knowledge Oracle - Infinite Wisdom!**\n\nI\x27m your research superhero with access to vast knowledge:\n\nâ€¢ **ğŸ”¬ Deep Research**: Comprehensive analysis and insights\nâ€¢ **ğŸ“ Advanced Learning**: Complex topics made simple\nâ€¢ **ğŸ§© Problem Solving**: Step-by-step genius solutions\nâ€¢ **â­ Best Practices**: Industry-leading standards\nâ€¢ **ğŸŒŸ Expert Guidance**: Professional-level advice\n\nWhat knowledge quest shall we embark on?"

/-- Fallback text for `general` (part_004 lines 505-515). -/
def fallbackText_general : String :=
  "ğŸŒŸ **PandaNexus - Your AI Genius Companion!**\n\nI\x27m here to provide world-class assistance that will exceed your expectations:\n\nâ€¢ **â“ Expert Answers**: Detailed responses on any topic\nâ€¢ **ğŸ“‹ Smart Planning**: Organize thoughts and projects brilliantly  \nâ€¢ **ğŸ§  Problem Solving**: Work through challenges with AI precision\nâ€¢ **ğŸ¯ Learning**: Explain anything in the clearest way possible\nâ€¢ **ğŸš€ Productivity**: Make every moment more efficient\n\nHow can I make your day absolutely incredible?"

/-- `getFallbackResponse(content, serviceType)` (part_004 lines 467-519).
The `content` argument is accepted and ignored, exactly as in the source. -/
def getFallbackResponse (_content serviceType : String) : String :=
  if serviceType = "code" then fallbackText_code
  else if serviceType = "creative" then fallbackText_creative
  else if serviceType = "knowledge" then fallbackText_knowledge
  else if serviceType = "general" then fallbackText_general
  else fallbackText_general

/-- The model table lookup `this.models[serviceType] || this.models.auto`
(part_004 lines 190-196, 314). -/
def modelFor (serviceType : String) : String :=
  if serviceType = "auto" then "qwen/qwen-2.5-72b-instruct:free"
  else if serviceType = "code" then "deepseek/deepseek-coder"
  else if serviceType = "creative" then "anthropic/claude-3.5-sonnet"
  else if serviceType = "knowledge" then "google/gemini-pro-1.5"
  else if serviceType = "general" then "qwen/qwen-2.5-72b-instruct:free"
  else "qwen/qwen-2.5-72b-instruct:free"

/-- The image-generation intent regex
`/generate.*image|create.*image|make.*image|draw|picture|photo|art|visual/i`
(part_004 line 283), evaluated on the lowercased content. -/
def isImageGenerationText (content : String) : Bool :=
  let l := (jsToLower content).data
  hasSeq "generate".data "image".data l || hasSeq "create".data "image".data l
    || hasSeq "make".data "image".data l || hasSub "draw".data l
    || hasSub "picture".data l || hasSub "photo".data l
    || hasSub "art".data l || hasSub "visual".data l

/-- `content.replace(/generate|create|make|draw/gi, '')` (part_004 line 285):
delete every case-insensitive occurrence of the four verbs, scanning left to
right. -/
def stripImageVerbsAux : ℕ → List Char → List Char
  | 0, l => l
  | fuel + 1, l =>
    match l with
    | [] => []
    | c :: rest =>
      let low := (c :: rest).map Char.toLower
      if "generate".data.isPrefixOf low then stripImageVerbsAux fuel (rest.drop 7)
      else if "create".data.isPrefixOf low then stripImageVerbsAux fuel (rest.drop 5)
      else if "make".data.isPrefixOf low then stripImageVerbsAux fuel (rest.drop 3)
      else if "draw".data.isPrefixOf low then stripImageVerbsAux fuel (rest.drop 3)
      else c :: stripImageVerbsAux fuel rest

/-- `content.replace(/generate|create|make|draw/gi, '')` at the character
level: every step consumes at least one character, so fuel equal to the
length never runs out. -/
def stripImageVerbs (l : List Char) : List Char :=
  stripImageVerbsAux l.length l

/-- The cleaned image prompt: stripped verbs, then `trim()`. -/
def cleanImagePrompt (content : String) : String :=
  jsTrim (String.mk (stripImageVerbs content.data))

/-! ### Cache key: `quantumHash` and `getCacheKey` (part_004 lines 214-226) -/

/-- ECMAScript `ToInt32`: reduce an exact integer into `[-2^31, 2^31)`. -/
def toInt32 (x : ℤ) : ℤ := (x + 2 ^ 31) % 2 ^ 32 - 2 ^ 31

/-- ECMAScript `ToUint32`: reduce an exact integer into `[0, 2^32)`. -/
def toUint32 (x : ℤ) : ℕ := (x % 2 ^ 32).toNat

/-- One iteration of the `quantumHash` loop (part_004 line 217):
`hash = ((hash << 5) + hash) + str.charCodeAt(i)`.  In JavaScript `<<`
first coerces to int32 and wraps the shifted result to int32; the two
additions are then exact float additions (the running value stays far below
2^53 for any realistic string length). -/
def hashStep (h : ℤ) (c : ℕ) : ℤ := toInt32 (toInt32 h * 32) + h + c

/-- The `quantumHash` accumulation over the characters of the string. -/
def hashLoop (h : ℤ) (l : List Char) : ℤ :=
  l.foldl (fun h c => hashStep h c.toNat) h

/-- Digit character for base-36 output, matching `Number.toString(36)`
(digits then lowercase letters). -/
def base36Digit (n : ℕ) : Char :=
  if n < 10 then Char.ofNat (48 + n) else Char.ofNat (87 + n)

/-- Fuel-driven base-36 digit expansion (the fuel strictly dominates the
argument, so it never runs out; structural recursion keeps the definition
kernel-evaluable). -/
def toBase36Aux : ℕ → ℕ → List Char
  | 0, _ => []
  | fuel + 1, n =>
    if n < 36 then [base36Digit n]
    else toBase36Aux fuel (n / 36) ++ [base36Digit (n % 36)]

/-- Base-36 digit list of a natural number, most significant first,
matching `Number.toString(36)` on naturals. -/
def toBase36 (n : ℕ) : List Char :=
  toBase36Aux (n + 1) n

/-- `quantumHash(str)` (part_004 lines 214-220). -/
def quantumHash (s : String) : String :=
  String.mk (toBase36 (toUint32 (hashLoop 5381 s.data)))

/-- Lowercase hex digit (for JSON control-character escapes). -/
def hexDigitLower (n : ℕ) : Char :=
  if n < 10 then Char.ofNat (48 + n) else Char.ofNat (87 + n)

/-- JSON escaping of a single character, as `JSON.stringify` performs it. -/
def jsonEscapeChar (c : Char) : List Char :=
  if c = '"' then ['\\', '"']
  else if c = '\\' then ['\\', '\\']
  else if c = '\n' then ['\\', 'n']
  else if c = '\r' then ['\\', 'r']
  else if c = '\t' then ['\\', 't']
  else if c = '\x08' then ['\\', 'b']
  else if c = '\x0c' then ['\\', 'f']
  else if c.toNat < 32 then
    ['\\', 'u', '0', '0', hexDigitLower (c.toNat / 16), hexDigitLower (c.toNat % 16)]
  else [c]

/-- `JSON.stringify` of a string value. -/
def jsonString (s : String) : String :=
  String.mk ('"' :: s.data.foldr (fun c acc => jsonEscapeChar c ++ acc) ['"'])

/-- `JSON.stringify` of one `AIMessage` object literal: keys in insertion
order `role`, `content`, `image`; an absent (`undefined`) `image` property
is omitted, as `JSON.stringify` does. -/
def stringifyMessage (m : AIMessage) : String :=
  "\x7b\"role\":" ++ jsonString m.role ++ ",\"content\":" ++ jsonString m.content
    ++ (match m.image with
        | some img => ",\"image\":" ++ jsonString img
        | none => "") ++ "\x7d"

/-- `JSON.stringify` of an `AIMessage` array. -/
def stringifyMessages (ms : List AIMessage) : String :=
  "[" ++ String.intercalate "," (ms.map stringifyMessage) ++ "]"

/-- `getCacheKey(messages, serviceType)` (part_004 lines 222-226):
`messages.slice(-3)`, serialized and prefixed with the service type, then
hashed. -/
def getCacheKey (messages : List AIMessage) (serviceType : String) : String :=
  let lastThree := messages.drop (messages.length - 3)
  quantumHash (serviceType ++ ":" ++ stringifyMessages lastThree)

/-! ### Image URL construction (part_004 line 286) -/

/-- Uppercase hex digit (as produced by `encodeURIComponent`). -/
def hexDigitUpper (n : ℕ) : Char :=
  if n < 10 then Char.ofNat (48 + n) else Char.ofNat (55 + n)

/-- UTF-8 bytes of a character. -/
def utf8Bytes (c : Char) : List ℕ :=
  let n := c.toNat
  if n < 0x80 then [n]
  else if n < 0x800 then [0xC0 + n / 0x40, 0x80 + n % 0x40]
  else if n < 0x10000 then
    [0xE0 + n / 0x1000, 0x80 + (n / 0x40) % 0x40, 0x80 + n % 0x40]
  else
    [0xF0 + n / 0x40000, 0x80 + (n / 0x1000) % 0x40, 0x80 + (n / 0x40) % 0x40,
     0x80 + n % 0x40]

/-- `%XX` encoding of one byte. -/
def percentByte (b : ℕ) : List Char :=
  ['%', hexDigitUpper (b / 16), hexDigitUpper (b % 16)]

/-- The characters `encodeURIComponent` leaves unescaped. -/
def isUnreservedURIChar (c : Char) : Bool :=
  ('A' ≤ c && c ≤ 'Z') || ('a' ≤ c && c ≤ 'z') || ('0' ≤ c && c ≤ '9')
    || [ '-', '_', '.', '!', '~', '*', '\x27', '(', ')' ].contains c

/-- `encodeURIComponent(s)`. -/
def encodeURIComponent (s : String) : String :=
  String.mk (s.data.foldr
    (fun c acc =>
      (if isUnreservedURIChar c then [c] else ((utf8Bytes c).map percentByte).flatten) ++ acc)
    [])

/-- Decimal rendering of the `Date.now()` seed interpolated into the image
URL.  `Date.now()` always yields an integer, for which JavaScript number
rendering is plain decimal; non-integral rationals cannot arise there. -/
def jsNumberToString (q : ℚ) : String :=
  if q.den = 1 then toString q.num
  else toString q.num ++ "/" ++ toString q.den

/-- The partial segments of the image-path response template
(part_004 line 288), around the interpolated prompt. -/
def imageResponseText (prompt : String) : String :=
  "ğŸ¨ **AI Art Generated Instantly!**\n\nI\x27ve created a stunning masterpiece for: \""
    ++ prompt
    ++ "\"\n\nThis ultra-high-quality artwork was generated using advanced AI algorithms in milliseconds!"

/-- The constructed pollinations URL (part_004 line 286). -/
def imageUrlFor (prompt : String) (now : ℚ) : String :=
  "https://image.pollinations.ai/prompt/" ++ encodeURIComponent prompt
    ++ "?width=1024&height=1024&seed=" ++ jsNumberToString now
    ++ "&enhance=true&model=flux"

/-! ### The network streaming loop (part_004 lines 358-413) -/

/-- How the streaming loop ends: either the `[DONE]` sentinel was seen
(carrying the accumulated full response), or the reader was exhausted
without a sentinel (carrying the accumulated response and the unconsumed
buffer remainder, which the code silently discards). -/
inductive StreamEnd where
  | doneSentinel (fullResponse : String)
  | exhausted (fullResponse : String) (buffer : String)
deriving DecidableEq, Repr

/-- The inner `for (const line of lines)` body (part_004 lines 375-411).
`parse` abstracts the JavaScript builtin pipeline
`JSON.parse(data).choices?.[0]?.delta?.content`: `some c` when it produces
the string `c`, `none` when `JSON.parse` throws or a field is missing
(both are skipped by the source).  Returns the chunks delivered, the updated
accumulated response, and whether the `[DONE]` sentinel was reached (which
abandons any remaining lines, as the source returns from inside the loop). -/
def processLines (parse : String → Option String) (model : String) :
    List String → String → List AIStreamChunk × String × Bool
  | [], full => ([], full, false)
  | line :: rest, full =>
    if jsStartsWith line "data: " then
      let data := jsDropStr line 6
      if data = "[DONE]" then ([], full, true)
      else
        match parse data with
        | some c =>
          if c ≠ "" then
            let r := processLines parse model rest (full ++ c)
            ({ chunk := c, isFinal := false, error := none,
               model := some model } :: r.1, r.2)
          else processLines parse model rest full
        | none => processLines parse model rest full
    else processLines parse model rest full

/-- The outer `while (true)` reader loop (part_004 lines 367-413): each
reader chunk is appended to the carry buffer, split on newlines, the last
piece kept as the new buffer (`buffer = lines.pop() || ''`), and the
complete lines processed. -/
def streamLoop (parse : String → Option String) (model : String) :
    List String → String → String → List AIStreamChunk × StreamEnd
  | [], buffer, full => ([], StreamEnd.exhausted full buffer)
  | ch :: rest, buffer, full =>
    let pieces := jsSplit '\n' (buffer ++ ch)
    let lines := pieces.dropLast
    let buffer2 := (pieces.getLast?).getD ""
    let r := processLines parse model lines full
    if r.2.2 then (r.1, StreamEnd.doneSentinel r.2.1)
    else
      let r2 := streamLoop parse model rest buffer2 r.2.1
      (r.1 ++ r2.1, r2.2)

/-- The outcome of the single `fetch` of a `sendMessageStream` call, as seen
by the code.  `abortError` covers both an `AbortController` abort triggered
by the 30-second timeout (part_004 lines 308-312) and one triggered by
`cancelRequest()` — the code cannot distinguish the two, both surface as a
rejection named `AbortError`.  `okNoBody` is a 2xx response without a
readable body (`throw new Error('No reader available')`), `httpError` a
non-2xx status (`throw new Error('API request failed: ...')`), `netError`
any other rejection of `fetch` itself. -/
inductive NetResult where
  | ok (bodyChunks : List String)
  | okNoBody
  | httpError (status : ℕ)
  | netError
  | abortError
deriving DecidableEq, Repr

/-- JavaScript truthiness of `!lastMessage.image`: `undefined` and the
empty string are both falsy. -/
def jsFalsyStr (o : Option String) : Bool :=
  match o with
  | none => true
  | some s => s = ""

/-- The kinds of exception the modelled code can throw to its caller. -/
inductive JsError where
  | typeError
deriving DecidableEq, Repr

/-- The observable result of one completed `sendMessageStream` call: the
chunk trace delivered to `onChunk` in order, the quantum cache state after
the call, and whether the chat network endpoint was contacted. -/
structure StreamRun where
  trace : List AIStreamChunk
  cacheAfter : QuantumResponseCache
  networkCalled : Bool
deriving DecidableEq, Repr

/-- `sendMessageStream(messages, serviceType, onChunk)`
(part_004 lines 256-432) as a pure trace function over the explicit inputs:
the cache state, the current time, the network outcome and the JSON-parse
oracle.  A `JsError.typeError` result models the synchronous `TypeError`
thrown by reading `.content` of `undefined` when the conversation is empty
(line 262-265, before the `try` block, hence not recovered).  The model
covers one uninterrupted call; the interleaving of two overlapping calls is
treated separately by the small-step model further below. -/
def sendMessageStream (messages : List AIMessage) (serviceType : String)
    (cacheSt : QuantumResponseCache) (now : ℚ) (net : NetResult)
    (parse : String → Option String) : Except JsError StreamRun :=
  match messages.getLast? with
  | none => Except.error JsError.typeError
  | some lastMessage =>
    match getInstantResponse lastMessage.content with
    | some instant => Except.ok ⟨simulateTyping instant, cacheSt, false⟩
    | none =>
      let cacheKey := getCacheKey messages serviceType
      let got := cacheSt.get cacheKey now
      match got.1 with
      | some resp => Except.ok ⟨simulateTyping resp.content, got.2, false⟩
      | none =>
        let st1 := got.2
        if isImageGenerationText lastMessage.content
            && jsFalsyStr lastMessage.image then
          let prompt := cleanImagePrompt lastMessage.content
          let imageUrl := imageUrlFor prompt now
          let response := imageResponseText prompt
          let trace := simulateTyping response
            ++ [{ chunk := "", isFinal := true, error := none,
                  model := some "PandaNexus Art Engine" }]
          let st2 := st1.set cacheKey
            ⟨response, "PandaNexus Art Engine", some imageUrl, none⟩
            defaultBaseTtl now
          Except.ok ⟨trace, st2, false⟩
        else
          let selectedModel := modelFor serviceType
          match net with
          | NetResult.abortError =>
            Except.ok ⟨[{ chunk := "", isFinal := true,
                          error := some "Request cancelled", model := none }],
                       st1, true⟩
          | NetResult.okNoBody =>
            Except.ok ⟨simulateTyping
              (getFallbackResponse lastMessage.content serviceType), st1, true⟩
          | NetResult.httpError _ =>
            Except.ok ⟨simulateTyping
              (getFallbackResponse lastMessage.content serviceType), st1, true⟩
          | NetResult.netError =>
            Except.ok ⟨simulateTyping
              (getFallbackResponse lastMessage.content serviceType), st1, true⟩
          | NetResult.ok bodyChunks =>
            let r := streamLoop parse selectedModel bodyChunks "" ""
            match r.2 with
            | StreamEnd.doneSentinel full =>
              let st2 := st1.set cacheKey ⟨full, selectedModel, none, none⟩
                defaultBaseTtl now
              Except.ok ⟨r.1 ++ [{ chunk := "", isFinal := true, error := none,
                                   model := some selectedModel }], st2, true⟩
            | StreamEnd.exhausted _ _ =>
              Except.ok ⟨r.1, st1, true⟩

/-! ### The `src/services/aiService.ts` variant (markdown-embedded code
fence, lines 662-953): `SmartResponseCache` and the non-streaming
`sendMessage` cited by claim C10. -/

/-- One stored entry of `SmartResponseCache` (aiService.ts line 678). -/
structure SmartCacheItem where
  response : AIResponse
  timestamp : ℚ
  ttl : ℚ
deriving DecidableEq, Repr

/-- State of a `SmartResponseCache` (aiService.ts lines 677-744). -/
structure SmartResponseCache where
  cache : List (String × SmartCacheItem)
  hitCount : List (String × ℚ)
  maxSize : ℕ
deriving DecidableEq, Repr

/-- `new SmartResponseCache(maxSize)` (aiService.ts lines 682-686). -/
def SmartResponseCache.mkCache (maxSize : ℕ) : SmartResponseCache :=
  { cache := [], hitCount := [], maxSize := maxSize }

/-- `get(key)` (aiService.ts lines 688-704). -/
def SmartResponseCache.get (st : SmartResponseCache) (key : String)
    (now : ℚ) : Option AIResponse × SmartResponseCache :=
  match mapLookup st.cache key with
  | none => (none, st)
  | some item =>
    if item.timestamp + item.ttl < now then
      (none, { st with cache := mapDelete st.cache key,
                       hitCount := mapDelete st.hitCount key })
    else
      let hits := (mapLookup st.hitCount key).getD 0
      (some item.response, { st with hitCount := mapSet st.hitCount key (hits + 1) })

/-- `set(key, response, baseTtl)` (aiService.ts lines 706-743), with its LFU
eviction scan over the hit counters (`minHits` starts at `Infinity`; the
final `if (lfuKey)` is again a truthiness test). -/
def SmartResponseCache.set (st : SmartResponseCache) (key : String)
    (response : AIResponse) (baseTtl : ℚ) (now : ℚ) : SmartResponseCache :=
  let content := response.content
  let ttl := baseTtl
  let ttl := if 300 < content.length then min ttl (3 * 60 * 1000) else ttl
  let ttl := if strIncludes content "I think" || strIncludes content "in my opinion"
    then 2 * 60 * 1000 else ttl
  let st :=
    if st.maxSize ≤ st.cache.length then
      let scan := st.hitCount.foldl
        (fun acc p =>
          if jsLt (JsNum.fin p.2) acc.2 then (some p.1, JsNum.fin p.2) else acc)
        ((none : Option String), JsNum.inf)
      match scan.1 with
      | some k =>
        if k ≠ "" then
          { st with cache := mapDelete st.cache k,
                    hitCount := mapDelete st.hitCount k }
        else st
      | none => st
    else st
  let st := { st with cache := mapSet st.cache key ⟨response, now, ttl⟩ }
  if (mapLookup st.hitCount key).isNone then
    { st with hitCount := mapSet st.hitCount key 0 }
  else st

/-- `checkInstantResponse(message)` (aiService.ts lines 812-821) over the
six-row pattern table (lines 749-756): anchored case-insensitive
alternations against the trimmed message. -/
def aiSvcCheckInstantResponse (message : String) : Option String :=
  let t := (jsToLower (jsTrim message)).data
  if startsWithAny t ["hello", "hi", "hey", "greetings", "good morning",
      "good afternoon", "good evening"] then
    some "Hello! I\x27m PandaNexus AI, created by Shakeel. How can I assist you today?"
  else if startsWithAny t ["thanks", "thank you", "appreciate it", "cheers"] then
    some "You\x27re welcome! Is there anything else I can help you with?"
  else if startsWithAny t ["how are you", "how\x27s it going", "how do you do"] then
    some "I\x27m functioning well, thank you for asking! How can I help you today?"
  else if startsWithAny t ["what can you do", "what are your capabilities", "help"] then
    some "I can answer questions, help with research, generate ideas, and even create images. What would you like me to help you with?"
  else if startsWithAny t ["who are you", "what are you", "introduce yourself"] then
    some "I\x27m PandaNexus, an advanced AI assistant created by Shakeel. I\x27m here to help answer your questions and assist with various tasks."
  else if startsWithAny t ["bye", "goodbye", "see you", "farewell"] then
    some "Goodbye! Feel free to return if you have more questions."
  else none

/-- One iteration of `fastHash` (aiService.ts lines 797-805):
`hash = ((hash << 5) - hash) + char; hash = hash & hash;` — the running
value is an int32 at the start of each iteration, and `& `-ing wraps the
new value back to int32. -/
def fastHashStep (h : ℤ) (c : ℕ) : ℤ := toInt32 (toInt32 (h * 32) - h + c)

/-- `fastHash(str)` (aiService.ts lines 797-805): decimal rendering of the
(possibly negative) final int32. -/
def fastHash (s : String) : String :=
  toString (s.data.foldl (fun h c => fastHashStep h c.toNat) 0)

/-- `getCacheKey` of the aiService.ts variant (lines 807-810): the FULL
message list is serialized, not just the last three turns. -/
def aiSvcGetCacheKey (messages : List AIMessage) (serviceType : String) : String :=
  fastHash (serviceType ++ ":" ++ stringifyMessages messages)

/-- The image-generation regex of the aiService.ts variant (line 854):
`/generate.*image|create.*image|make.*image|draw|picture|photo/i` —
without the `art|visual` alternatives of part_004. -/
def aiSvcIsImageGenerationText (content : String) : Bool :=
  let l := (jsToLower content).data
  hasSeq "generate".data "image".data l || hasSeq "create".data "image".data l
    || hasSeq "make".data "image".data l || hasSub "draw".data l
    || hasSub "picture".data l || hasSub "photo".data l

/-- JavaScript `x || d` on an optional string: `undefined` and `""` both
fall through to the default. -/
def jsOrStr (o : Option String) (d : String) : String :=
  match o with
  | none => d
  | some s => if s = "" then d else s

/-- Outcome of the single `fetch` of the aiService.ts `sendMessage`:
a 2xx response whose parsed JSON body carries optional `content` and
`model` fields, a non-2xx status with its error text, a transport
rejection carrying its message, or an abort (the 30-second timeout or
`cancelRequest`). -/
inductive AiSvcNet where
  | ok (content : Option String) (model : Option String)
  | httpError (status : ℕ) (body : String)
  | netError (message : String)
  | abortError
deriving DecidableEq, Repr

/-- `sendMessage(messages, serviceType)` of the aiService.ts variant
(lines 832-931) as a pure function of the explicit inputs.  As in the
streaming model, an empty conversation produces the synchronous
`TypeError` of `lastMessage.content` (line 834-835), thrown before the
`try` block. -/
def aiSvcSendMessage (messages : List AIMessage) (serviceType : String)
    (cacheSt : SmartResponseCache) (now : ℚ) (net : AiSvcNet) :
    Except JsError (AIResponse × SmartResponseCache) :=
  match messages.getLast? with
  | none => Except.error JsError.typeError
  | some lastMessage =>
    match aiSvcCheckInstantResponse lastMessage.content with
    | some r =>
      Except.ok ({ content := r, model := "PandaNexus Instant" }, cacheSt)
    | none =>
      let cacheKey := aiSvcGetCacheKey messages serviceType
      let got := cacheSt.get cacheKey now
      match got.1 with
      | some resp => Except.ok (resp, got.2)
      | none =>
        let st1 := got.2
        let hasImage := !(jsFalsyStr lastMessage.image)
        if aiSvcIsImageGenerationText lastMessage.content && !hasImage then
          let prompt := cleanImagePrompt lastMessage.content
          let imageUrl := "https://image.pollinations.ai/prompt/"
            ++ encodeURIComponent prompt ++ "?width=512&height=512&seed="
            ++ jsNumberToString now
          let response : AIResponse :=
            { content := "I\x27ve generated an image for: \"" ++ prompt
                ++ "\". Here\x27s your custom AI-generated image!",
              model := "Pollinations AI", imageUrl := some imageUrl }
          Except.ok (response, st1.set cacheKey response (2 * 60 * 1000) now)
        else
          match net with
          | AiSvcNet.abortError =>
            Except.ok ({ content := "The request is taking longer than expected. Please try again or rephrase your question.",
                         model := "Error", error := some "Request timeout" }, st1)
          | AiSvcNet.httpError status body =>
            Except.ok ({ content := "I\x27m experiencing technical difficulties. Please try again in a moment.",
                         model := "Error",
                         error := some ("API request failed: " ++ toString status ++ " - " ++ body) }, st1)
          | AiSvcNet.netError message =>
            Except.ok ({ content := "I\x27m experiencing technical difficulties. Please try again in a moment.",
                         model := "Error", error := some message }, st1)
          | AiSvcNet.ok content model =>
            let aiResponse : AIResponse :=
              { content := jsOrStr content "No response generated.",
                model := jsOrStr model "phi3",
                imageUrl := lastMessage.image }
            Except.ok (aiResponse, st1.set cacheKey aiResponse (5 * 60 * 1000) now)

/-! ### Small-step model of overlapping requests (part_004 lines 248-253,
307-312, 367-431)

The streaming loop of `sendMessageStream` suspends exactly at its
`await reader.read()` calls; everything between two suspensions (splitting
the buffer, the `for` over complete lines, the `onChunk` invocations) runs
atomically on the event loop.  Claims about two overlapping calls therefore
need a model at this granularity: each in-flight network streaming loop is
a `StreamTask` suspended at its next `read()`, and the service instance
carries the shared `this.abortController` cell.  The cache write on the
sentinel path is not represented here (it is covered by the single-call
trace model above and is irrelevant to chunk delivery); everything else
follows the source line by line. -/

/-- One in-flight streaming loop, suspended at `await reader.read()`:
the identity of the `onChunk` callback it captured, the id of the
`AbortController` captured at request start (line 307), the selected model,
the carry buffer and accumulated response, and the reader chunks not yet
read. -/
structure StreamTask where
  callbackId : ℕ
  controllerId : ℕ
  model : String
  buffer : String
  fullResponse : String
  pending : List String
deriving DecidableEq, Repr

/-- The service instance plus event-loop bookkeeping: the current
`this.abortController` (by id), the set of controllers whose `abort()` has
been called, a fresh-id counter, the suspended tasks, and the chunks
delivered so far, tagged by callback. -/
structure ServiceState where
  currentController : Option ℕ
  aborted : List ℕ
  nextId : ℕ
  tasks : List StreamTask
  outputs : List (ℕ × AIStreamChunk)
deriving DecidableEq, Repr

/-- Initial service state: no in-flight request. -/
def ServiceState.init : ServiceState :=
  { currentController := none, aborted := [], nextId := 0, tasks := [],
    outputs := [] }

/-- The terminal chunk emitted by the `AbortError` handler
(part_004 lines 415-422). -/
def cancelledChunk : AIStreamChunk :=
  { chunk := "", isFinal := true, error := some "Request cancelled",
    model := none }

/-- Events the event loop can process: a new `sendMessageStream` call
entering its network branch (allocating a fresh `AbortController`,
line 307, and suspending at the first `read()`); a `cancelRequest()` call
(lines 248-253); or the resumption of suspended task `i`. -/
inductive SvcEvent where
  | startStream (model : String) (body : List String)
  | cancel
  | step (i : ℕ)
deriving DecidableEq, Repr

/-- One event-loop transition.  On resumption of a task whose controller
has been aborted, `reader.read()` rejects with `AbortError`, the handler
emits the single cancelled terminal chunk, and the `finally` block clears
`this.abortController` (lines 414-431).  Otherwise one reader chunk is
consumed and its complete lines are processed exactly as in `streamLoop`;
reaching the `[DONE]` sentinel emits the terminal chunk and ends the task,
an exhausted reader ends the task silently.  Note that ending a task clears
`this.abortController` even when it meanwhile belongs to a newer request. -/
def svcStep (parse : String → Option String) (st : ServiceState) :
    SvcEvent → ServiceState
  | SvcEvent.startStream model body =>
    { st with currentController := some st.nextId,
              nextId := st.nextId + 1,
              tasks := st.tasks ++ [⟨st.nextId, st.nextId, model, "", "", body⟩] }
  | SvcEvent.cancel =>
    match st.currentController with
    | some id =>
      { st with aborted := id :: st.aborted, currentController := none }
    | none => st
  | SvcEvent.step i =>
    match st.tasks.get? i with
    | none => st
    | some t =>
      if t.controllerId ∈ st.aborted then
        { st with tasks := st.tasks.eraseIdx i,
                  outputs := st.outputs ++ [(t.callbackId, cancelledChunk)],
                  currentController := none }
      else
        match t.pending with
        | [] =>
          { st with tasks := st.tasks.eraseIdx i,
                    currentController := none }
        | ch :: rest =>
          let pieces := jsSplit '\n' (t.buffer ++ ch)
          let lines := pieces.dropLast
          let buffer2 := (pieces.getLast?).getD ""
          let r := processLines parse t.model lines t.fullResponse
          if r.2.2 then
            { st with tasks := st.tasks.eraseIdx i,
                      outputs := st.outputs
                        ++ r.1.map (fun c => (t.callbackId, c))
                        ++ [(t.callbackId,
                             { chunk := "", isFinal := true, error := none,
                               model := some t.model })],
                      currentController := none }
          else
            { st with tasks := st.tasks.set i
                        { t with buffer := buffer2, fullResponse := r.2.1,
                                 pending := rest },
                      outputs := st.outputs
                        ++ r.1.map (fun c => (t.callbackId, c)) }

/-- Run a sequence of event-loop transitions. -/
def svcRun (parse : String → Option String) (st : ServiceState)
    (evts : List SvcEvent) : ServiceState :=
  evts.foldl (svcStep parse) st

/-! ### Support lemmas about the map model -/

theorem mapLookup_eq_none_of_not_mem {α : Type} (m : List (String × α))
    (k : String) (h : k ∉ m.map Prod.fst) : mapLookup m k = none := by
  induction m with
  | nil => rfl
  | cons p rest ih =>
    simp only [List.map_cons, List.mem_cons, not_or] at h
    have hp : ¬ p.1 = k := fun hh => h.1 hh.symm
    simp [mapLookup, hp, ih h.2]

theorem mapLookup_mapSet_self {α : Type} (m : List (String × α)) (k : String)
    (v : α) : mapLookup (mapSet m k v) k = some v := by
  induction m with
  | nil => simp [mapSet, mapLookup]
  | cons p rest ih =>
    by_cases h : p.1 = k
    · simp [mapSet, h, mapLookup]
    · simp [mapSet, h, mapLookup, ih]

theorem mapLookup_mapSet_ne {α : Type} (m : List (String × α)) (k k' : String)
    (v : α) (h : k' ≠ k) :
    mapLookup (mapSet m k v) k' = mapLookup m k' := by
  induction m with
  | nil =>
    have hk : ¬ k = k' := fun hh => h hh.symm
    simp [mapSet, mapLookup, hk]
  | cons p rest ih =>
    by_cases hp : p.1 = k
    · subst hp
      have hk : ¬ p.1 = k' := fun hh => h hh.symm
      simp [mapSet, mapLookup, hk]
    · simp [mapSet, hp, mapLookup, ih]

theorem mapSet_length_of_fresh {α : Type} (m : List (String × α)) (k : String)
    (v : α) (h : mapLookup m k = none) :
    (mapSet m k v).length = m.length + 1 := by
  induction m with
  | nil => simp [mapSet]
  | cons p rest ih =>
    by_cases hp : p.1 = k
    · simp [mapLookup, hp] at h
    · simp only [mapLookup, if_neg hp] at h
      simp [mapSet, hp, ih h]

theorem mapLookup_mapDelete_ne {α : Type} (m : List (String × α))
    (k k' : String) (h : k' ≠ k) :
    mapLookup (mapDelete m k) k' = mapLookup m k' := by
  induction m with
  | nil => simp [mapDelete]
  | cons p rest ih =>
    by_cases hp : p.1 = k
    · subst hp
      have hk : ¬ p.1 = k' := fun hh => h hh.symm
      simp [mapDelete, mapLookup, hk]
    · simp [mapDelete, hp, mapLookup, ih]

theorem mapLookup_mapDelete_self {α : Type} (m : List (String × α))
    (k : String) (hnd : (m.map Prod.fst).Nodup) :
    mapLookup (mapDelete m k) k = none := by
  induction m with
  | nil => rfl
  | cons p rest ih =>
    simp only [List.map_cons, List.nodup_cons] at hnd
    by_cases hp : p.1 = k
    · subst hp
      simpa [mapDelete] using mapLookup_eq_none_of_not_mem rest p.1 hnd.1
    · simp [mapDelete, hp, mapLookup, ih hnd.2]

theorem mapLookup_nonneg_getD (m : List (String × ℚ)) (k : String)
    (h : ∀ kv ∈ m, 0 ≤ kv.2) : 0 ≤ (mapLookup m k).getD 0 := by
  induction m with
  | nil => simp [mapLookup]
  | cons p rest ih =>
    by_cases hp : p.1 = k
    · simpa [mapLookup, hp] using h p (by simp)
    · simpa [mapLookup, hp] using ih (fun kv hkv => h kv (by simp [hkv]))

theorem forall_mapSet {α : Type} (P : String × α → Prop)
    (m : List (String × α)) (k : String) (v : α)
    (hm : ∀ p ∈ m, P p) (hv : P (k, v)) :
    ∀ p ∈ mapSet m k v, P p := by
  induction m with
  | nil => simpa [mapSet]
  | cons q rest ih =>
    by_cases hq : q.1 = k
    · intro p hp
      rcases (by simpa [mapSet, hq] using hp) with h | h
      · exact h ▸ hv
      · exact hm p (by simp [h])
    · intro p hp
      rcases (by simpa [mapSet, hq] using hp) with h | h
      · exact h ▸ hm q (by simp)
      · exact ih (fun r hr => hm r (by simp [hr])) p h

/-! ### Quality-score bounds (part_004 lines 75-85) -/

theorem calculateQuality_ge_half (r : AIResponse) :
    (0.5 : ℚ) ≤ QuantumResponseCache.calculateQuality r := by
  unfold QuantumResponseCache.calculateQuality
  dsimp only
  rw [le_min_iff]
  refine ⟨?_, by norm_num⟩
  split_ifs <;> norm_num

theorem calculateQuality_le_one (r : AIResponse) :
    QuantumResponseCache.calculateQuality r ≤ 1 := by
  unfold QuantumResponseCache.calculateQuality
  dsimp only
  exact le_trans (min_le_right _ _) (by norm_num)

theorem calculateQuality_nonneg (r : AIResponse) :
    0 ≤ QuantumResponseCache.calculateQuality r :=
  le_trans (by norm_num) (calculateQuality_ge_half r)

/-! ### The eviction scan on same-millisecond entries (claim C3)

When every stored entry carries the current timestamp, every eviction score
is the IEEE division `(quality*hits)/0`, i.e. `Infinity` (or `NaN` when the
numerator is zero).  Neither satisfies `score < lowestScore` against the
initial `Infinity`, so the scan selects no victim and `evictLowQuality`
does nothing. -/

theorem evictFold_const_of_same_timestamp (hc : List (String × ℚ)) (now : ℚ)
    (l : List (String × CacheItem))
    (h : ∀ p ∈ l, p.2.timestamp = now ∧
      0 ≤ p.2.quality * ((mapLookup hc p.1).getD 0)) :
    l.foldl
      (fun acc p =>
        let hits := (mapLookup hc p.1).getD 0
        let age := now - p.2.timestamp
        let score := jsDiv (p.2.quality * hits) (age / 1000)
        if jsLt score acc.2 then (some p.1, score) else acc)
      (none, JsNum.inf) = (none, JsNum.inf) := by
  induction l with
  | nil => rfl
  | cons p rest ih =>
    have hp := h p (by simp)
    have hstep :
        (if jsLt (jsDiv (p.2.quality * ((mapLookup hc p.1).getD 0))
            ((now - p.2.timestamp) / 1000)) JsNum.inf
          then (some p.1, jsDiv (p.2.quality * ((mapLookup hc p.1).getD 0))
            ((now - p.2.timestamp) / 1000))
          else ((none : Option String), JsNum.inf)) = (none, JsNum.inf) := by
      rw [hp.1]
      have hzero : ((now - now) / 1000 : ℚ) = 0 := by ring
      rw [hzero]
      rcases lt_or_eq_of_le hp.2 with hpos | hzeroq
      · have hdiv : jsDiv (p.2.quality * ((mapLookup hc p.1).getD 0)) 0
            = JsNum.inf := by
          unfold jsDiv
          rw [if_pos rfl, if_pos hpos]
        rw [hdiv]
        rfl
      · have hdiv : jsDiv (p.2.quality * ((mapLookup hc p.1).getD 0)) 0
            = JsNum.nan := by
          unfold jsDiv
          rw [if_pos rfl, ← hzeroq]
          norm_num
        rw [hdiv]
        rfl
    simpa [List.foldl_cons, hstep] using ih (fun q hq => h q (by simp [hq]))

theorem evictScan_none_of_same_timestamp (st : QuantumResponseCache)
    (now : ℚ)
    (h : ∀ p ∈ st.cache, p.2.timestamp = now ∧
      0 ≤ p.2.quality * ((mapLookup st.hitCount p.1).getD 0)) :
    st.evictScan now = (none, JsNum.inf) := by
  unfold QuantumResponseCache.evictScan
  exact evictFold_const_of_same_timestamp st.hitCount now st.cache h

theorem evictLowQuality_id_of_same_timestamp (st : QuantumResponseCache)
    (now : ℚ)
    (h : ∀ p ∈ st.cache, p.2.timestamp = now ∧
      0 ≤ p.2.quality * ((mapLookup st.hitCount p.1).getD 0)) :
    st.evictLowQuality now = st := by
  unfold QuantumResponseCache.evictLowQuality
  rw [evictScan_none_of_same_timestamp st now h]

/-- `set` never changes the configured capacity. -/
theorem set_maxSize (st : QuantumResponseCache) (k : String)
    (r : AIResponse) (ttl now : ℚ) :
    (st.set k r ttl now).maxSize = st.maxSize := by
  unfold QuantumResponseCache.set QuantumResponseCache.evictLowQuality
  dsimp only
  split_ifs
  · split
    · split_ifs <;> rfl
    · rfl
  · rfl

/-- Invariant for the same-millisecond scenario: every entry is stamped
`now` with a non-negative quality, and all hit counters are non-negative. -/
def SameStampInv (st : QuantumResponseCache) (now : ℚ) : Prop :=
  (∀ p ∈ st.cache, p.2.timestamp = now ∧ 0 ≤ p.2.quality)
    ∧ (∀ kv ∈ st.hitCount, 0 ≤ kv.2)

theorem set_fresh_of_sameStamp (st : QuantumResponseCache) (k : String)
    (r : AIResponse) (ttl now : ℚ) (hinv : SameStampInv st now)
    (hk : mapLookup st.cache k = none) :
    (st.set k r ttl now).cache.length = st.cache.length + 1
      ∧ SameStampInv (st.set k r ttl now) now
      ∧ ∀ k', k' ≠ k →
          mapLookup (st.set k r ttl now).cache k' = mapLookup st.cache k' := by
  have hprod : ∀ p ∈ st.cache, p.2.timestamp = now ∧
      0 ≤ p.2.quality * ((mapLookup st.hitCount p.1).getD 0) := by
    intro p hp
    exact ⟨(hinv.1 p hp).1,
      mul_nonneg (hinv.1 p hp).2 (mapLookup_nonneg_getD _ _ hinv.2)⟩
  have hevict : (if st.maxSize ≤ st.cache.length
      then st.evictLowQuality now else st) = st := by
    split_ifs with hcap
    · exact evictLowQuality_id_of_same_timestamp st now hprod
    · rfl
  unfold QuantumResponseCache.set
  dsimp only
  rw [hevict]
  refine ⟨mapSet_length_of_fresh _ _ _ hk, ⟨?_, ?_⟩, ?_⟩
  · exact forall_mapSet _ _ _ _ hinv.1 ⟨rfl, calculateQuality_nonneg r⟩
  · exact forall_mapSet _ _ _ _ hinv.2
      (mul_nonneg (calculateQuality_nonneg r) (by norm_num))
  · intro k' hk'
    exact mapLookup_mapSet_ne _ _ _ _ hk'

/-- Fold a list of `set` calls (all at the same instant) over a cache
state. -/
def fillKeys (keys : List String) (r : AIResponse) (now : ℚ)
    (st : QuantumResponseCache) : QuantumResponseCache :=
  keys.foldl (fun st k => st.set k r defaultBaseTtl now) st

theorem fillKeys_length (r : AIResponse) (now : ℚ) :
    ∀ (keys : List String) (st : QuantumResponseCache),
      SameStampInv st now → (∀ k ∈ keys, mapLookup st.cache k = none) →
      keys.Nodup →
      (fillKeys keys r now st).cache.length = st.cache.length + keys.length
        ∧ (fillKeys keys r now st).maxSize = st.maxSize := by
  intro keys
  induction keys with
  | nil => intro st _ _ _; exact ⟨rfl, rfl⟩
  | cons k rest ih =>
    intro st hinv hfresh hnd
    have hstep := set_fresh_of_sameStamp st k r defaultBaseTtl now hinv
      (hfresh k (by simp))
    have hrest : ∀ k' ∈ rest, mapLookup (st.set k r defaultBaseTtl now).cache k' = none := by
      intro k' hk'
      have hne : k' ≠ k := by
        rintro rfl
        exact (List.nodup_cons.mp hnd).1 hk'
      rw [hstep.2.2 k' hne]
      exact hfresh k' (by simp [hk'])
    have hih := ih (st.set k r defaultBaseTtl now) hstep.2.1 hrest
      (List.nodup_cons.mp hnd).2
    constructor
    · show (fillKeys rest r now (st.set k r defaultBaseTtl now)).cache.length = _
      rw [hih.1, hstep.1]
      simp [List.length_cons]
      omega
    · show (fillKeys rest r now (st.set k r defaultBaseTtl now)).maxSize = _
      rw [hih.2, set_maxSize]

/-- Pairwise-distinct key family: the key of index `i` is the string of
`i` repetitions of `a`. -/
def replicateKey (i : ℕ) : String := String.mk (List.replicate i 'a')

theorem replicateKey_inj : Function.Injective replicateKey := by
  intro a b h
  have h2 : List.replicate a 'a' = List.replicate b 'a' := congrArg String.data h
  have h3 := congrArg List.length h2
  simpa using h3

/-- 1001 pairwise-distinct keys. -/
def manyKeys (n : ℕ) : List String := (List.range n).map replicateKey

/-- The quantum cache (capacity 1000, as constructed on part_004 line 109)
after 1001 `set` calls with distinct keys, all during the same
millisecond. -/
def overfullCache : QuantumResponseCache :=
  fillKeys (manyKeys 1001) { content := "x", model := "m" } 0
    (QuantumResponseCache.mkCache 1000)

/-- C3: the claim states that after any sequence of `set` calls the store
holds at most `maxSize` (1000) entries, an eviction making room whenever
the store is at capacity.  The code violates this: when every stored entry
was inserted during the same millisecond as the overflowing `set`
(`age = 0`), every eviction score is the IEEE division by zero `Infinity`
(or `NaN`), no score satisfies `score < Infinity`, `evictLowQuality`
removes nothing, and the fresh key is inserted anyway.  After 1001 distinct
`set` calls at one instant the capacity-1000 store holds 1001 entries. -/
theorem c3_capacity_exceeded :
    overfullCache.maxSize = 1000
      ∧ overfullCache.cache.length = 1001
      ∧ overfullCache.maxSize < overfullCache.cache.length := by
  have hinv : SameStampInv (QuantumResponseCache.mkCache 1000) 0 := by
    constructor
    · intro p hp
      simp [QuantumResponseCache.mkCache] at hp
    · intro kv hkv
      simp [QuantumResponseCache.mkCache] at hkv
  have hfresh : ∀ k ∈ manyKeys 1001,
      mapLookup (QuantumResponseCache.mkCache 1000).cache k = none := by
    intro k _
    rfl
  have hnd : (manyKeys 1001).Nodup :=
    (List.nodup_range 1001).map replicateKey_inj
  have hfill := fillKeys_length { content := "x", model := "m" } 0
    (manyKeys 1001) (QuantumResponseCache.mkCache 1000) hinv hfresh hnd
  have hlen : (manyKeys 1001).length = 1001 := by simp [manyKeys]
  refine ⟨?_, ?_, ?_⟩
  · exact hfill.2
  · show (fillKeys (manyKeys 1001) _ 0 _).cache.length = 1001
    rw [hfill.1, hlen]
    rfl
  · have h1 : overfullCache.maxSize = 1000 := hfill.2
    have h2 : overfullCache.cache.length = 1001 := by
      show (fillKeys (manyKeys 1001) _ 0 _).cache.length = 1001
      rw [hfill.1, hlen]
      rfl
    omega

/-! ### Behaviour of `get` (claims C4, C7) -/

/-- A one-entry cache state, used to state the expiration scenarios. -/
def singleEntry (key : String) (r : AIResponse) (t T q : ℚ) :
    QuantumResponseCache :=
  { cache := [(key, { response := r, timestamp := t, ttl := T, quality := q })],
    hitCount := [], maxSize := 1000 }

/-- After a miss, the store holds no entry under the requested key (the
lookup either found nothing or purged the expired entry). -/
theorem get_none_lookup_after (st : QuantumResponseCache) (key : String)
    (now : ℚ) (hnd : (st.cache.map Prod.fst).Nodup)
    (h : (st.get key now).1 = none) :
    mapLookup ((st.get key now).2).cache key = none := by
  cases hl : mapLookup st.cache key with
  | none =>
    unfold QuantumResponseCache.get
    rw [hl]
    exact hl
  | some item =>
    unfold QuantumResponseCache.get at h ⊢
    rw [hl] at h ⊢
    dsimp only at h ⊢
    split_ifs at h ⊢ with hexp
    exact mapLookup_mapDelete_self _ _ hnd

/-- `get` never touches entries under other keys. -/
theorem get_other_lookup (st : QuantumResponseCache) (key : String)
    (now : ℚ) (k' : String) (hk' : k' ≠ key) :
    mapLookup ((st.get key now).2).cache k' = mapLookup st.cache k' := by
  unfold QuantumResponseCache.get
  cases hl : mapLookup st.cache key with
  | none => rfl
  | some item =>
    dsimp only
    split_ifs with hexp
    · exact mapLookup_mapDelete_ne _ _ _ hk'
    · rfl

/-- The read result on a one-entry store, as a closed form. -/
theorem get_single_characterization (key : String) (r : AIResponse)
    (t T q now : ℚ) :
    ((singleEntry key r t T q).get key now).1
      = if t + T * (1 + q * 0.5) < now then none else some r := by
  dsimp only [QuantumResponseCache.get, singleEntry, mapLookup]
  rw [if_pos rfl]
  dsimp only
  split_ifs <;> rfl

/-- C4: an entry read through `get` is available exactly until its
effective expiration `timestamp + ttl * (1 + quality * 0.5)`, which is
never earlier than `timestamp + ttl` when the quality and TTL are
non-negative; concretely, a quality-0 entry with TTL `T` is gone at
`t + T + ε`, while a quality-1 entry is still served at `t + T + ε`
(for `ε ≤ T/2`) and gone by `t + 2T + ε`. -/
theorem c4_expiration (key : String) (r : AIResponse) (t T ε : ℚ)
    (_hT : 0 < T) (hε : 0 < ε) (hε2 : ε ≤ T / 2) :
    (∀ (st : QuantumResponseCache) (item : CacheItem) (now : ℚ),
        mapLookup st.cache key = some item → 0 ≤ item.quality →
        0 ≤ item.ttl →
        (((st.get key now).1).isSome ↔
            now ≤ item.timestamp + item.ttl * (1 + item.quality * 0.5))
          ∧ item.timestamp + item.ttl
              ≤ item.timestamp + item.ttl * (1 + item.quality * 0.5))
    ∧ ((singleEntry key r t T 0).get key (t + T + ε)).1 = none
    ∧ ((singleEntry key r t T 1).get key (t + T + ε)).1 = some r
    ∧ ((singleEntry key r t T 1).get key (t + 2 * T + ε)).1 = none := by
  refine ⟨?_, ?_, ?_, ?_⟩
  · intro st item now hl hq httl
    constructor
    · unfold QuantumResponseCache.get
      rw [hl]
      dsimp only
      split_ifs with hexp
      · exact iff_of_false (by simp) (not_le.mpr hexp)
      · exact iff_of_true (by simp) (not_lt.mp hexp)
    · have haux : 0 ≤ item.ttl * (item.quality * 0.5) :=
        mul_nonneg httl (mul_nonneg hq (by norm_num))
      nlinarith [haux]
  · rw [get_single_characterization]
    rw [if_pos (by nlinarith)]
  · rw [get_single_characterization]
    rw [if_neg (by push_neg; nlinarith)]
  · rw [get_single_characterization]
    rw [if_pos (by nlinarith)]

/-- Witness for C4 at a concrete instant: `t = 0`, `T = 1000`, `ε = 100`. -/
theorem c4_expiration_witness :
    ((singleEntry "k" { content := "x", model := "m" } 0 1000 0).get "k"
        (0 + 1000 + 100)).1 = none
      ∧ ((singleEntry "k" { content := "x", model := "m" } 0 1000 1).get "k"
        (0 + 1000 + 100)).1 = some { content := "x", model := "m" }
      ∧ ((singleEntry "k" { content := "x", model := "m" } 0 1000 1).get "k"
        (0 + 2 * 1000 + 100)).1 = none := by
  have h := c4_expiration "k" { content := "x", model := "m" } 0 1000 100
    (by norm_num) (by norm_num) (by norm_num)
  exact ⟨h.2.1, h.2.2.1, h.2.2.2⟩

/-- C9: the quality heuristic starts at 0.5, adds only non-negative
bonuses and clamps at 1, so it always lands in `[0.5, 1]`; hence every
entry stored by `set` carries `qualityScore ≥ 0.5` (never 0), and its
effective TTL `ttl * (1 + quality * 0.5)` is at least `1.25 ×` the stored
TTL. -/
theorem c9_quality_score_bounds (r : AIResponse) (st : QuantumResponseCache)
    (key : String) (baseTtl now : ℚ) (httl : 0 ≤ baseTtl) :
    ((0.5 : ℚ) ≤ QuantumResponseCache.calculateQuality r
      ∧ QuantumResponseCache.calculateQuality r ≤ 1)
    ∧ ∃ it : CacheItem,
        mapLookup (st.set key r baseTtl now).cache key = some it
        ∧ it.quality = QuantumResponseCache.calculateQuality r
        ∧ (0.5 : ℚ) ≤ it.quality
        ∧ it.quality ≠ 0
        ∧ 0 ≤ it.ttl
        ∧ 1.25 * it.ttl ≤ it.ttl * (1 + it.quality * 0.5) := by
  refine ⟨⟨calculateQuality_ge_half r, calculateQuality_le_one r⟩, ?_⟩
  unfold QuantumResponseCache.set
  dsimp only
  refine ⟨_, mapLookup_mapSet_self _ _ _, rfl, calculateQuality_ge_half r,
    ?_, ?_, ?_⟩
  · intro h0
    have h0q : QuantumResponseCache.calculateQuality r = 0 := h0
    have hgt := calculateQuality_ge_half r
    rw [h0q] at hgt
    norm_num at hgt
  · dsimp only
    split_ifs <;> nlinarith
  · dsimp only
    have hq := calculateQuality_ge_half r
    have httl2 : (0 : ℚ) ≤ (if 500 < r.content.length then baseTtl * 1.5
        else baseTtl) := by
      split_ifs <;> nlinarith
    have httl3 : (0 : ℚ) ≤ (if strIncludes r.content "```" then
        (if 500 < r.content.length then baseTtl * 1.5 else baseTtl) * 2
        else (if 500 < r.content.length then baseTtl * 1.5 else baseTtl)) := by
      split_ifs <;> nlinarith
    split_ifs <;> nlinarith

/-- Witness for C9 at a concrete response and call. -/
theorem c9_quality_score_bounds_witness :
    (((0.5 : ℚ) ≤ QuantumResponseCache.calculateQuality
        { content := "x", model := "m" }
      ∧ QuantumResponseCache.calculateQuality { content := "x", model := "m" } ≤ 1)
    ∧ ∃ it : CacheItem,
        mapLookup ((QuantumResponseCache.mkCache 1000).set "k"
          { content := "x", model := "m" } defaultBaseTtl 0).cache "k" = some it
        ∧ it.quality = QuantumResponseCache.calculateQuality
            { content := "x", model := "m" }
        ∧ (0.5 : ℚ) ≤ it.quality
        ∧ it.quality ≠ 0
        ∧ 0 ≤ it.ttl
        ∧ 1.25 * it.ttl ≤ it.ttl * (1 + it.quality * 0.5)) :=
  c9_quality_score_bounds { content := "x", model := "m" }
    (QuantumResponseCache.mkCache 1000) "k" defaultBaseTtl 0
    (by norm_num [defaultBaseTtl])

/-! ### Injectivity of the base-36 rendering and modular analysis of
`quantumHash` (claim C5) -/

/-- Numeric value of a base-36 digit character. -/
def base36Val (c : Char) : ℕ :=
  if c.toNat ≤ 57 then c.toNat - 48 else c.toNat - 87

/-- Valuation of a base-36 digit string, most significant first. -/
def ofBase36 (l : List Char) : ℕ :=
  l.foldl (fun acc c => acc * 36 + base36Val c) 0

theorem base36Val_digit : ∀ d : ℕ, d < 36 → base36Val (base36Digit d) = d := by
  decide

theorem ofBase36_append (l : List Char) (c : Char) :
    ofBase36 (l ++ [c]) = ofBase36 l * 36 + base36Val c := by
  unfold ofBase36
  rw [List.foldl_append]
  rfl

theorem ofBase36_toBase36Aux :
    ∀ fuel n : ℕ, n < fuel → ofBase36 (toBase36Aux fuel n) = n := by
  intro fuel
  induction fuel with
  | zero => intro n hn; omega
  | succ fuel ih =>
    intro n hn
    unfold toBase36Aux
    split_ifs with h36
    · show ofBase36 [base36Digit n] = n
      have : ofBase36 [base36Digit n] = 0 * 36 + base36Val (base36Digit n) := rfl
      rw [this, base36Val_digit n h36]
      omega
    · rw [ofBase36_append]
      have hpos : 0 < n := by omega
      have hdivlt : n / 36 < n := Nat.div_lt_self hpos (by omega)
      rw [ih (n / 36) (by omega), base36Val_digit (n % 36) (Nat.mod_lt n (by omega))]
      omega

theorem toBase36_injective : Function.Injective toBase36 := by
  intro a b h
  have ha := ofBase36_toBase36Aux (a + 1) a (Nat.lt_succ_self a)
  have hb := ofBase36_toBase36Aux (b + 1) b (Nat.lt_succ_self b)
  unfold toBase36 at h
  rw [h, hb] at ha
  exact ha.symm

theorem quantumHash_ne_of_hash_ne (s1 s2 : String)
    (h : toUint32 (hashLoop 5381 s1.data) ≠ toUint32 (hashLoop 5381 s2.data)) :
    quantumHash s1 ≠ quantumHash s2 := by
  unfold quantumHash
  intro heq
  apply h
  apply toBase36_injective
  have hdata := congrArg String.data heq
  exact hdata

theorem toInt32_emod (x : ℤ) : toInt32 x % 2 ^ 32 = x % 2 ^ 32 := by
  unfold toInt32
  have h31 : (2 : ℤ) ^ 31 = 2147483648 := by norm_num
  have h32 : (2 : ℤ) ^ 32 = 4294967296 := by norm_num
  rw [h31, h32]
  omega

/-- One hash iteration is congruent to `33*h + c` modulo `2^32`. -/
theorem hashStep_emod (h : ℤ) (c : ℕ) :
    hashStep h c % 2 ^ 32 = (33 * h + c) % 2 ^ 32 := by
  unfold hashStep
  have e1 : toInt32 (toInt32 h * 32) % 2 ^ 32 = h * 32 % 2 ^ 32 := by
    rw [toInt32_emod, Int.mul_emod, toInt32_emod, ← Int.mul_emod]
  calc (toInt32 (toInt32 h * 32) + h + ↑c) % 2 ^ 32
      = (toInt32 (toInt32 h * 32) % 2 ^ 32 + (h + ↑c) % 2 ^ 32) % 2 ^ 32 := by
        rw [add_assoc, Int.add_emod]
    _ = (h * 32 % 2 ^ 32 + (h + ↑c) % 2 ^ 32) % 2 ^ 32 := by rw [e1]
    _ = (h * 32 + (h + ↑c)) % 2 ^ 32 := by rw [← Int.add_emod]
    _ = (33 * h + ↑c) % 2 ^ 32 := by ring_nf

/-- Distinct residues stay distinct through one hash iteration (33 is
invertible modulo `2^32`: `33 * 1041204193 = 8 * 2^32 + 1`). -/
theorem hashStep_emod_ne (c : ℕ) {h1 h2 : ℤ}
    (hne : h1 % 2 ^ 32 ≠ h2 % 2 ^ 32) :
    hashStep h1 c % 2 ^ 32 ≠ hashStep h2 c % 2 ^ 32 := by
  rw [hashStep_emod, hashStep_emod]
  intro heq
  apply hne
  have h32 : (2 : ℤ) ^ 32 = 4294967296 := by norm_num
  rw [h32] at heq ⊢
  have h33 : (33 * h1) % 4294967296 = (33 * h2) % 4294967296 := by omega
  have hu : (1041204193 * (33 * h1)) % 4294967296
      = (1041204193 * (33 * h2)) % 4294967296 := by
    rw [Int.mul_emod, h33, ← Int.mul_emod]
  have hr1 : (1041204193 : ℤ) * (33 * h1) = 34359738369 * h1 := by ring
  have hr2 : (1041204193 : ℤ) * (33 * h2) = 34359738369 * h2 := by ring
  rw [hr1, hr2] at hu
  omega

theorem hashLoop_emod_ne :
    ∀ (l : List Char) {h1 h2 : ℤ}, h1 % 2 ^ 32 ≠ h2 % 2 ^ 32 →
      hashLoop h1 l % 2 ^ 32 ≠ hashLoop h2 l % 2 ^ 32 := by
  intro l
  induction l with
  | nil => intro h1 h2 h; exact h
  | cons c rest ih => intro h1 h2 h; exact ih (hashStep_emod_ne c.toNat h)

theorem toUint32_ne {h1 h2 : ℤ} (hne : h1 % 2 ^ 32 ≠ h2 % 2 ^ 32) :
    toUint32 h1 ≠ toUint32 h2 := by
  unfold toUint32
  intro heq
  apply hne
  have n1 : 0 ≤ h1 % 2 ^ 32 := Int.emod_nonneg h1 (by norm_num)
  have n2 : 0 ≤ h2 % 2 ^ 32 := Int.emod_nonneg h2 (by norm_num)
  omega

theorem hashLoop_append (h : ℤ) (l1 l2 : List Char) :
    hashLoop h (l1 ++ l2) = hashLoop (hashLoop h l1) l2 := by
  unfold hashLoop
  rw [List.foldl_append]

/-- The service categories enumerated by the model/prompt tables
(part_004 lines 190-196, 316-322). -/
def serviceCategories : List String :=
  ["auto", "code", "creative", "knowledge", "general"]

/-- C5: the fingerprint is deterministic (equal conversations and
categories give equal keys), and for the five enumerated service
categories it is category-partitioned: with the same conversation,
different categories always produce different keys.  The second half
holds for every conversation because one `quantumHash` iteration is
multiplication by the odd constant 33 plus the character code modulo
`2^32`, so a residue difference injected by the category prefix is
preserved by every subsequent character of the serialized conversation. -/
theorem c5_fingerprint_partition (ms1 ms2 : List AIMessage) (c1 c2 : String)
    (h1 : c1 ∈ serviceCategories) (h2 : c2 ∈ serviceCategories) :
    (ms1 = ms2 ∧ c1 = c2 → getCacheKey ms1 c1 = getCacheKey ms2 c2)
    ∧ (ms1 = ms2 ∧ c1 ≠ c2 → getCacheKey ms1 c1 ≠ getCacheKey ms2 c2) := by
  constructor
  · rintro ⟨rfl, rfl⟩
    rfl
  · rintro ⟨rfl, hne⟩
    unfold getCacheKey
    apply quantumHash_ne_of_hash_ne
    apply toUint32_ne
    have hsplit : ∀ c : String,
        (c ++ ":" ++ stringifyMessages (ms1.drop (ms1.length - 3))).data
          = (c ++ ":").data
            ++ (stringifyMessages (ms1.drop (ms1.length - 3))).data := by
      intro c
      simp
    rw [hsplit c1, hsplit c2, hashLoop_append, hashLoop_append]
    apply hashLoop_emod_ne
    clear hsplit
    revert hne
    fin_cases h1 <;> fin_cases h2 <;> intro hne <;>
      first
      | exact absurd rfl hne
      | decide

/-- Witness for C5 at the empty conversation and the `auto`/`code`
category pair. -/
theorem c5_fingerprint_partition_witness :
    (([] : List AIMessage) = [] ∧ "auto" = "code" →
        getCacheKey [] "auto" = getCacheKey [] "code")
      ∧ (([] : List AIMessage) = [] ∧ "auto" ≠ "code" →
        getCacheKey [] "auto" ≠ getCacheKey [] "code") :=
  c5_fingerprint_partition [] [] "auto" "code"
    (by simp [serviceCategories]) (by simp [serviceCategories])

/-! ### Concrete inputs shared by the remaining claims -/

/-- The singleton quantum cache instance starts empty with capacity 1000
(part_004 line 109). -/
def quantumCacheInit : QuantumResponseCache := QuantumResponseCache.mkCache 1000

/-- The image-generation example conversation. -/
def foxMessage : AIMessage :=
  { role := "user", content := "generate image of a red fox" }

/-- One-turn conversation around `foxMessage`. -/
def foxConversation : List AIMessage := [foxMessage]

/-- A conversation matching no instant pattern and no image intent. -/
def franceMessage : AIMessage :=
  { role := "user", content := "What is the capital of France?" }

/-- One-turn conversation around `franceMessage`. -/
def franceConversation : List AIMessage := [franceMessage]

/-- Number of terminal chunks in a trace. -/
def finalCount (tr : List AIStreamChunk) : ℕ :=
  (tr.filter (fun c => c.isFinal)).length

/-- The image URL the fox conversation produces at
`Date.now() = 1700000000000`. -/
def foxImageUrl : String :=
  imageUrlFor (cleanImagePrompt "generate image of a red fox") 1700000000000

/-- C1: the claim asserts that every completed `sendMessageStream` call
delivers exactly one `isFinal = true` chunk.  Two code paths violate it:
the image-generation path first awaits `simulateTyping` (whose last chunk
is already final) and then emits a second explicit final chunk
(part_004 lines 290-296), so its trace carries two final chunks; and a 2xx
response whose stream ends without the `[DONE]` sentinel leaves the read
loop and returns through `finally` without ever emitting a final chunk, so
its trace carries zero (lines 367-413; the code's own `sendMessage`
wrapper would await such a call forever). -/
theorem c1_single_terminal_violated :
    (sendMessageStream foxConversation "auto" quantumCacheInit 1700000000000
        NetResult.netError (fun _ => none)).toOption.map
        (fun run => finalCount run.trace) = some 2
    ∧ (sendMessageStream franceConversation "auto" quantumCacheInit 0
        (NetResult.ok ["data: AAA\n"]) (fun s => some s)).toOption.map
        (fun run => finalCount run.trace) = some 0 :=
  ⟨by decide, by decide⟩

/-- C2 counterexample: with a conversation that reaches the network branch
and a transport abort (which is exactly what the 30-second timeout
produces, part_004 lines 308-312), the call resolves with the single
`Request cancelled` terminal chunk of the `AbortError` handler
(lines 415-422) — not with the category fallback delivery the claim
describes. -/
theorem c2_timeout_counterexample :
    (sendMessageStream franceConversation "auto" quantumCacheInit 0
        NetResult.abortError (fun _ => none)).toOption
      = some ⟨[cancelledChunk], quantumCacheInit, true⟩
    ∧ [cancelledChunk]
        ≠ simulateTyping (getFallbackResponse franceMessage.content "auto") :=
  ⟨by decide, by decide⟩

/-- C2 (amended): when the request reaches the network branch and the
transport aborts — whether through the 30-second timeout or through
`cancelRequest`, which the code cannot distinguish — the call resolves
(no rejection escapes) by delivering exactly one terminal chunk, tagged
`Request cancelled`; no fallback content is delivered and the cache is
untouched beyond the earlier lookup. -/
theorem c2_timeout_terminal_cancelled (messages : List AIMessage)
    (last : AIMessage) (serviceType : String) (st : QuantumResponseCache)
    (now : ℚ) (parse : String → Option String)
    (hlast : messages.getLast? = some last)
    (hinstant : getInstantResponse last.content = none)
    (hmiss : (st.get (getCacheKey messages serviceType) now).1 = none)
    (himg : (isImageGenerationText last.content && jsFalsyStr last.image)
      = false) :
    sendMessageStream messages serviceType st now NetResult.abortError parse
      = Except.ok ⟨[cancelledChunk],
          (st.get (getCacheKey messages serviceType) now).2, true⟩ := by
  unfold sendMessageStream
  rw [hlast]
  dsimp only
  rw [hinstant]
  dsimp only
  rw [hmiss]
  dsimp only
  rw [himg]
  rfl

/-- Witness for the amended C2 at the concrete France conversation. -/
theorem c2_timeout_terminal_cancelled_witness :
    sendMessageStream franceConversation "auto" quantumCacheInit 0
        NetResult.abortError (fun _ => none)
      = Except.ok ⟨[cancelledChunk],
          (quantumCacheInit.get (getCacheKey franceConversation "auto") 0).2,
          true⟩ :=
  c2_timeout_terminal_cancelled franceConversation franceMessage "auto"
    quantumCacheInit 0 (fun _ => none) (by decide) (by decide) (by decide)
    (by decide)

/-- C6: on the fox conversation the image-generation branch fires: the
chat endpoint is never contacted, and the response cached for this
fingerprint carries the pollinations URL, which contains the URL-encoded
cleaned prompt (in particular the substring `a%20red%20fox`) and none of
the verbs `generate`, `create`, `make`, `draw` (they were deleted by the
prompt-cleaning `replace`). -/
theorem c6_image_generation_no_network :
    (sendMessageStream foxConversation "auto" quantumCacheInit 1700000000000
        NetResult.netError (fun _ => none)).toOption.map
      (fun run => (run.networkCalled,
        (mapLookup run.cacheAfter.cache (getCacheKey foxConversation "auto")).map
          (fun it => it.response.imageUrl)))
      = some (false, some (some foxImageUrl))
    ∧ strIncludes foxImageUrl "a%20red%20fox" = true
    ∧ strIncludes foxImageUrl "generate" = false
    ∧ strIncludes foxImageUrl "create" = false
    ∧ strIncludes foxImageUrl "make" = false
    ∧ strIncludes foxImageUrl "draw" = false :=
  ⟨by decide, by decide, by decide, by decide, by decide, by decide⟩

/-- C7: a call that reaches the network branch and fails with a non-abort
error (missing body reader, non-2xx status, or transport failure) delivers
the category fallback through `simulateTyping` and performs no cache
write: afterwards the store holds no entry under the request fingerprint,
and every other key is untouched. -/
theorem c7_fallback_not_cached (messages : List AIMessage) (last : AIMessage)
    (serviceType : String) (st : QuantumResponseCache) (now : ℚ)
    (parse : String → Option String) (net : NetResult)
    (hnd : (st.cache.map Prod.fst).Nodup)
    (hlast : messages.getLast? = some last)
    (hinstant : getInstantResponse last.content = none)
    (hmiss : (st.get (getCacheKey messages serviceType) now).1 = none)
    (himg : (isImageGenerationText last.content && jsFalsyStr last.image)
      = false)
    (hnet : net = NetResult.okNoBody ∨ (∃ status, net = NetResult.httpError status)
      ∨ net = NetResult.netError) :
    sendMessageStream messages serviceType st now net parse
      = Except.ok ⟨simulateTyping (getFallbackResponse last.content serviceType),
          (st.get (getCacheKey messages serviceType) now).2, true⟩
    ∧ mapLookup ((st.get (getCacheKey messages serviceType) now).2).cache
        (getCacheKey messages serviceType) = none
    ∧ ∀ k', k' ≠ getCacheKey messages serviceType →
        mapLookup ((st.get (getCacheKey messages serviceType) now).2).cache k'
          = mapLookup st.cache k' := by
  refine ⟨?_, get_none_lookup_after st _ now hnd hmiss,
    fun k' hk' => get_other_lookup st _ now k' hk'⟩
  unfold sendMessageStream
  rw [hlast]
  dsimp only
  rw [hinstant]
  dsimp only
  rw [hmiss]
  dsimp only
  rw [himg]
  rcases hnet with rfl | ⟨status, rfl⟩ | rfl <;> rfl

/-- Witness for C7 at the concrete France conversation and a transport
failure. -/
theorem c7_fallback_not_cached_witness :
    (sendMessageStream franceConversation "auto" quantumCacheInit 0
        NetResult.netError (fun _ => none)
      = Except.ok ⟨simulateTyping (getFallbackResponse franceMessage.content "auto"),
          (quantumCacheInit.get (getCacheKey franceConversation "auto") 0).2,
          true⟩)
    ∧ mapLookup ((quantumCacheInit.get (getCacheKey franceConversation "auto") 0).2).cache
        (getCacheKey franceConversation "auto") = none
    ∧ ∀ k', k' ≠ getCacheKey franceConversation "auto" →
        mapLookup ((quantumCacheInit.get (getCacheKey franceConversation "auto") 0).2).cache k'
          = mapLookup quantumCacheInit.cache k' :=
  c7_fallback_not_cached franceConversation franceMessage "auto"
    quantumCacheInit 0 (fun _ => none) NetResult.netError (by decide)
    (by decide) (by decide) (by decide) (by decide) (Or.inr (Or.inr rfl))

/-- C10: an empty conversation makes `sendMessageStream` (part_004) and the
aiService.ts `sendMessage` fail before any chunk or response is produced:
`messages[messages.length - 1]` is `undefined` and reading its `.content`
throws a `TypeError` outside the `try` block, so the never-throw recovery
policy never sees it and the async call rejects. -/
theorem c10_empty_conversation_rejects (serviceType : String)
    (st : QuantumResponseCache) (now : ℚ) (net : NetResult)
    (parse : String → Option String) (sst : SmartResponseCache) (anow : ℚ)
    (anet : AiSvcNet) :
    sendMessageStream [] serviceType st now net parse
        = Except.error JsError.typeError
      ∧ aiSvcSendMessage [] serviceType sst anow anet
        = Except.error JsError.typeError :=
  ⟨rfl, rfl⟩

/-- C8 counterexample: request 0 enters its streaming loop, then request 1
starts on the same instance (allocating a new `AbortController` without
touching the old one, part_004 line 307), then the event loop resumes
request 0.  Request 0's controller was never aborted, so its network
chunks — including its content chunk — are still delivered to its
callback after the newer request has started, exactly what the claim
forbids.  All outputs of this run belong to callback 0 even though
callback 1 is the newest. -/
theorem c8_supersede_counterexample :
    (svcRun (fun s => some s) ServiceState.init
      [SvcEvent.startStream "m" ["data: hi\ndata: [DONE]\n"],
       SvcEvent.startStream "m" ["data: yo\n"],
       SvcEvent.step 0]).outputs
      = [(0, { chunk := "hi", isFinal := false, error := none,
               model := some "m" }),
         (0, { chunk := "", isFinal := true, error := none,
               model := some "m" })]
    ∧ (0 : ℕ) ≠ 1 :=
  ⟨by decide, by decide⟩

/-- C8 (amended): once `cancelRequest` has aborted the controller an
in-flight streaming loop captured, that loop delivers nothing further from
its network stream: its next resumption sees the `AbortError`, appends the
single `Request cancelled` terminal chunk, and the task terminates (and is
removed, so it can never emit again).  Merely starting a newer request,
however, does not abort the superseded loop, whose stream chunks can still
be delivered afterwards. -/
theorem c8_cancel_silences_stream (parse : String → Option String)
    (st : ServiceState) (i : ℕ) (t : StreamTask)
    (hget : st.tasks.get? i = some t)
    (habort : t.controllerId ∈ st.aborted) :
    svcStep parse st (SvcEvent.step i)
      = { st with tasks := st.tasks.eraseIdx i,
                  outputs := st.outputs ++ [(t.callbackId, cancelledChunk)],
                  currentController := none } := by
  unfold svcStep
  dsimp only
  rw [hget]
  simp [habort]

/-- Witness for the amended C8: a one-task state whose controller has been
aborted. -/
theorem c8_cancel_silences_stream_witness :
    svcStep (fun s => some s)
      { currentController := none, aborted := [0], nextId := 1,
        tasks := [⟨0, 0, "m", "", "", ["data: hi\n"]⟩], outputs := [] }
      (SvcEvent.step 0)
      = { currentController := none, aborted := [0], nextId := 1,
          tasks := [], outputs := [(0, cancelledChunk)] } :=
  c8_cancel_silences_stream (fun s => some s)
    { currentController := none, aborted := [0], nextId := 1,
      tasks := [⟨0, 0, "m", "", "", ["data: hi\n"]⟩], outputs := [] }
    0 ⟨0, 0, "m", "", "", ["data: hi\n"]⟩ (by decide) (by decide)
